import Mathlib

/-!
Shallow embedding of the real-time fraud monitor in
`src/frontend/components/Login.tsx` (`RealtimeMonitorModal`, lines 462-494).

The source keeps five pieces of React state:
  `transactions` (array, capped to 50 via `[data, ...prev].slice(0, 50)`),
  `alerts`       (array, capped to 20 via `[data, ...prev].slice(0, 20)`),
  `isConnected`  (boolean, set by `ws.onopen` / `ws.onclose`),
  `stats`        (`{ total, alerts, truePositives, falsePositives }`),
and a WebSocket whose `onmessage` handler parses each frame with
`JSON.parse`, dispatches on `data.type` (`type == "error"` shows a blocking
`alert(...)` dialog and returns; `type == "transaction"` pushes into the windows and
increments the counters, and when `data.is_alert` also pushes into the alert
feed and plays a sound; any other tag falls through both branches, a no-op).
`JSON.parse` of an unparseable body throws; the exception escapes the
handler and is contained and logged by the browser event loop, so no state
update runs for that frame and later frames are still delivered.

We model the handler as a pure step on a `Session` record, the inbound frame
as the tagged variant the dispatch distinguishes, and the observable side
channels (the dialog, the sound, the escaped exception) as an effect list.
TypeScript numbers carried by events are modelled as `Rat` (amounts, risk
scores), ids as `Int`, and `fraud_actual` as `Option Int` since the strict
comparisons `data.fraud_actual === 1` / `=== 0` are also well defined when
the field is absent (`undefined`) or out of range.
-/

namespace AttackOnPython

/-- The `RealtimeTransaction` interface of `Login.tsx` (line 292): the payload
of a `{"type":"transaction"}` frame. -/
structure RealtimeTransaction where
  transaction_id : Int
  timestamp : String
  sender_id : Int
  receiver_id : Int
  amount : Rat
  is_alert : Bool
  sender_risk_score : Rat
  receiver_risk_score : Rat
  fraud_actual : Option Int
  transaction_type : String
deriving DecidableEq, Repr

/-- The `stats` React state: `{ total, alerts, truePositives, falsePositives }`.
Counters are JavaScript numbers, modelled as integers. -/
structure Stats where
  total : Int
  alerts : Int
  truePositives : Int
  falsePositives : Int
deriving DecidableEq, Repr

/-- `useState({ total: 0, alerts: 0, truePositives: 0, falsePositives: 0 })`. -/
def initStats : Stats := { total := 0, alerts := 0, truePositives := 0, falsePositives := 0 }

/-- An inbound WebSocket frame, as the `onmessage` dispatch distinguishes
frames: a body `JSON.parse` throws on, `{"type":"error","message":...}`,
`{"type":"transaction",...}`, or valid JSON with any other type tag. -/
inductive Frame where
  | malformed (body : String)
  | errorMsg (message : String)
  | transaction (d : RealtimeTransaction)
  | other (tag : String)
deriving DecidableEq, Repr

/-- Observable side channels of one handler invocation: the uncaught
`JSON.parse` exception (contained and logged by the event loop), the blocking
`alert(...)` dialog, and `audioRef.current.play()`. -/
inductive Effect where
  | uncaughtException (body : String)
  | alertDialog (message : String)
  | playAlertSound
deriving DecidableEq, Repr

/-- One monitor session: the React state of `RealtimeMonitorModal` plus a
`closed` flag recording that `ws.close()` has run (after which the browser
delivers no further `message` events to the handler). -/
structure Session where
  transactions : List RealtimeTransaction
  alerts : List RealtimeTransaction
  isConnected : Bool
  stats : Stats
  closed : Bool
deriving DecidableEq, Repr

/-- The freshly mounted modal: empty windows, zeroed counters, not yet
connected, socket open. -/
def initSession : Session :=
  { transactions := [], alerts := [], isConnected := false, stats := initStats,
    closed := false }

/-- `[data, ...prev].slice(0, cap)`: prepend, then truncate to `cap`. -/
def pushWindow (cap : Nat) (prev : List α) (d : α) : List α :=
  (d :: prev).take cap

/-- The `setStats` updater of the `type == "transaction"` branch: `total + 1`,
`alerts + (is_alert ? 1 : 0)`,
`truePositives + (is_alert && fraud_actual === 1 ? 1 : 0)`,
`falsePositives + (is_alert && fraud_actual === 0 ? 1 : 0)`. -/
def recordStats (st : Stats) (d : RealtimeTransaction) : Stats :=
  { total := st.total + 1,
    alerts := st.alerts + (if d.is_alert then 1 else 0),
    truePositives :=
      st.truePositives + (if d.is_alert = true ∧ d.fraud_actual = some 1 then 1 else 0),
    falsePositives :=
      st.falsePositives + (if d.is_alert = true ∧ d.fraud_actual = some 0 then 1 else 0) }

/-- The body of `ws.onmessage` on one frame: the new state and the emitted
effects. A malformed body throws out of `JSON.parse` before any state update;
an `type == "error"` frame shows the dialog and returns; a `type == "transaction"` frame
pushes into the 50-window, updates the counters, and when `is_alert` also
pushes into the 20-window and plays the sound; any other tag is a no-op. -/
def handleMessage (s : Session) (f : Frame) : Session × List Effect :=
  match f with
  | .malformed body => (s, [.uncaughtException body])
  | .errorMsg m => (s, [.alertDialog ("Backend Error: " ++ m)])
  | .transaction d =>
      let s1 := { s with
        transactions := pushWindow 50 s.transactions d,
        stats := recordStats s.stats d }
      if d.is_alert then
        ({ s1 with alerts := pushWindow 20 s1.alerts d }, [.playAlertSound])
      else
        (s1, [])
  | .other _ => (s, [])

/-- Delivery of one frame to the session: after `ws.close()` the handler is
never invoked again, otherwise the `onmessage` body runs. -/
def deliver (s : Session) (f : Frame) : Session :=
  if s.closed then s else (handleMessage s f).1

/-- `ws.onopen = () => setIsConnected(true)`. -/
def onOpen (s : Session) : Session :=
  if s.closed then s else { s with isConnected := true }

/-- `ws.close()` (the effect cleanup): no further handler invocations; the
`onclose` callback sets the connectivity indicator to disconnected. -/
def closeSession (s : Session) : Session :=
  { s with closed := true, isConnected := false }

/-- Deliver a sequence of frames in arrival order. -/
def run (fs : List Frame) (s : Session) : Session :=
  fs.foldl deliver s

/-- Push a sequence of items into a window of capacity `cap`, oldest first. -/
def pushAll (cap : Nat) (buf : List α) (evs : List α) : List α :=
  evs.foldl (pushWindow cap) buf

/-- Componentwise order on the four counters. -/
def statsLe (a b : Stats) : Prop :=
  a.total ≤ b.total ∧ a.alerts ≤ b.alerts ∧
    a.truePositives ≤ b.truePositives ∧ a.falsePositives ≤ b.falsePositives

/-- A frame whose alerted transaction payload (if any) carries a ground-truth
label in `{0, 1}`, as the data model requires of well-formed feeds. -/
def goodFrame : Frame → Prop
  | .transaction d => d.is_alert = true → d.fraud_actual = some 0 ∨ d.fraud_actual = some 1
  | _ => True

/-- The counter invariants of §3 of the spec: `alerts ≤ total`,
`truePositives + falsePositives = alerts`, all counters non-negative. -/
def statsInv (st : Stats) : Prop :=
  st.alerts ≤ st.total ∧
    st.truePositives + st.falsePositives = st.alerts ∧
    0 ≤ st.total ∧ 0 ≤ st.alerts ∧ 0 ≤ st.truePositives ∧ 0 ≤ st.falsePositives

/-- The buffer invariants: the alert feed holds only alerted events, its
length never exceeds 20, and the transaction stream never exceeds 50. -/
def feedInv (s : Session) : Prop :=
  (∀ e ∈ s.alerts, e.is_alert = true) ∧
    s.alerts.length ≤ 20 ∧ s.transactions.length ≤ 50

/-- A concrete transaction event family, distinct in `transaction_id`. -/
def mkTx (i : Nat) : RealtimeTransaction :=
  { transaction_id := (i : Int), timestamp := "2026-01-01T00:00:00Z",
    sender_id := 0, receiver_id := 1, amount := 5, is_alert := false,
    sender_risk_score := 0, receiver_risk_score := 0, fraud_actual := some 0,
    transaction_type := "transfer" }

/-- A concrete alerted event with ground-truth fraud label 1. -/
def demoAlertTP : RealtimeTransaction :=
  { transaction_id := 7, timestamp := "2026-01-01T00:00:01Z",
    sender_id := 2, receiver_id := 3, amount := 9, is_alert := true,
    sender_risk_score := 1, receiver_risk_score := 1, fraud_actual := some 1,
    transaction_type := "cash_out" }

/-- A concrete alerted event whose `fraud_actual` is out of range. -/
def demoAlertBadLabel : RealtimeTransaction :=
  { transaction_id := 8, timestamp := "2026-01-01T00:00:02Z",
    sender_id := 2, receiver_id := 3, amount := 9, is_alert := true,
    sender_risk_score := 1, receiver_risk_score := 1, fraud_actual := some 2,
    transaction_type := "cash_out" }

/-- The 51 distinct transaction frames of Scenario 4, in push order. -/
def scenarioFrames : List Frame :=
  (List.range 51).map fun i => Frame.transaction (mkTx (i + 1))

/-- The session state after Scenario 4 runs from a fresh session. -/
def scenarioState : Session :=
  run scenarioFrames initSession

/-! ## Helper lemmas -/

theorem take_cons_take (cap : Nat) (x : α) (l : List α) :
    (x :: l.take cap).take cap = (x :: l).take cap := by
  cases cap with
  | zero => simp
  | succ n =>
      simp only [List.take_succ_cons, List.take_take]
      rw [Nat.min_eq_left (Nat.le_succ n)]

theorem pushAll_take (cap : Nat) (evs : List α) :
    ∀ l : List α, pushAll cap (l.take cap) evs = (evs.reverse ++ l).take cap := by
  induction evs with
  | nil => intro l; simp [pushAll]
  | cons x xs ih =>
      intro l
      have h1 : pushAll cap (l.take cap) (x :: xs) =
          pushAll cap ((x :: l).take cap) xs := by
        simp only [pushAll, List.foldl_cons, pushWindow]
        rw [take_cons_take]
      rw [h1, ih (x :: l)]
      simp

theorem pushAll_nil (cap : Nat) (evs : List α) :
    pushAll cap [] evs = evs.reverse.take cap := by
  have h := pushAll_take cap evs ([] : List α)
  simpa using h

theorem deliver_closed_eq (s : Session) (f : Frame) :
    (deliver s f).closed = s.closed := by
  by_cases h : s.closed
  · simp [deliver, h]
  · cases f with
    | malformed b => simp [deliver, h, handleMessage]
    | errorMsg m => simp [deliver, h, handleMessage]
    | transaction d =>
        by_cases hb : d.is_alert <;> simp [deliver, h, handleMessage, hb]
    | other t => simp [deliver, h, handleMessage]

theorem run_closed_eq (fs : List Frame) (s : Session) :
    (run fs s).closed = s.closed := by
  induction fs generalizing s with
  | nil => rfl
  | cons f fs ih =>
      show (run fs (deliver s f)).closed = s.closed
      rw [ih (deliver s f), deliver_closed_eq]

theorem deliver_transaction (s : Session) (d : RealtimeTransaction)
    (h : s.closed = false) :
    deliver s (.transaction d) =
      { s with
        transactions := pushWindow 50 s.transactions d,
        alerts := if d.is_alert then pushWindow 20 s.alerts d else s.alerts,
        stats := recordStats s.stats d } := by
  by_cases hb : d.is_alert <;> simp [deliver, h, handleMessage, hb]

theorem run_tx_transactions (evs : List RealtimeTransaction) :
    ∀ s : Session, s.closed = false →
      (run (evs.map Frame.transaction) s).transactions =
        pushAll 50 s.transactions evs := by
  induction evs with
  | nil => intro s _; rfl
  | cons d ds ih =>
      intro s h
      show (run (ds.map Frame.transaction) (deliver s (.transaction d))).transactions = _
      rw [ih (deliver s (.transaction d)) (by rw [deliver_closed_eq]; exact h),
        deliver_transaction s d h]
      rfl

theorem run_tx_total (evs : List RealtimeTransaction) :
    ∀ s : Session, s.closed = false →
      (run (evs.map Frame.transaction) s).stats.total =
        s.stats.total + (evs.length : Int) := by
  induction evs with
  | nil => intro s _; simp [run]
  | cons d ds ih =>
      intro s h
      show (run (ds.map Frame.transaction) (deliver s (.transaction d))).stats.total = _
      rw [ih (deliver s (.transaction d)) (by rw [deliver_closed_eq]; exact h),
        deliver_transaction s d h]
      simp [recordStats]
      ring

theorem statsLe_deliver (s : Session) (f : Frame) :
    statsLe s.stats (deliver s f).stats := by
  by_cases h : s.closed
  · simp [deliver, h, statsLe]
  · cases f with
    | malformed b => simp [deliver, h, handleMessage, statsLe]
    | errorMsg m => simp [deliver, h, handleMessage, statsLe]
    | transaction d =>
        rw [deliver_transaction s d (by simpa using h)]
        simp only [statsLe, recordStats]
        refine ⟨by omega, ?_, ?_, ?_⟩ <;> split <;> omega
    | other t => simp [deliver, h, handleMessage, statsLe]

theorem statsInv_deliver (s : Session) (f : Frame)
    (hg : goodFrame f) (hs : statsInv s.stats) : statsInv (deliver s f).stats := by
  by_cases h : s.closed
  · simpa [deliver, h] using hs
  · cases f with
    | malformed b => simpa [deliver, h, handleMessage] using hs
    | errorMsg m => simpa [deliver, h, handleMessage] using hs
    | transaction d =>
        rw [deliver_transaction s d (by simpa using h)]
        obtain ⟨h1, h2, h3, h4, h5, h6⟩ := hs
        by_cases hb : d.is_alert = true
        · rcases hg hb with hf | hf <;>
            simp [statsInv, recordStats, hb, hf] <;> omega
        · simp [statsInv, recordStats, hb]
          omega
    | other t => simpa [deliver, h, handleMessage] using hs

theorem statsInv_run (fs : List Frame) :
    ∀ s : Session, (∀ f ∈ fs, goodFrame f) → statsInv s.stats →
      statsInv (run fs s).stats := by
  induction fs with
  | nil => intro s _ hs; exact hs
  | cons f fs ih =>
      intro s hg hs
      exact ih (deliver s f) (fun g hgm => hg g (List.mem_cons_of_mem f hgm))
        (statsInv_deliver s f (hg f (List.mem_cons_self f fs)) hs)

theorem feedInv_deliver (s : Session) (f : Frame)
    (hs : feedInv s) : feedInv (deliver s f) := by
  by_cases h : s.closed
  · simpa [deliver, h] using hs
  · cases f with
    | malformed b => simpa [deliver, h, handleMessage] using hs
    | errorMsg m => simpa [deliver, h, handleMessage] using hs
    | transaction d =>
        rw [deliver_transaction s d (by simpa using h)]
        obtain ⟨hmem, hlen, htx⟩ := hs
        by_cases hb : d.is_alert = true
        · refine ⟨?_, ?_, ?_⟩
          · intro e he
            simp only [hb, if_true, pushWindow] at he
            rcases List.mem_cons.mp (List.take_subset _ _ he) with rfl | he2
            · exact hb
            · exact hmem e he2
          · simp only [hb, if_true, pushWindow]
            exact le_trans (List.length_take_le 20 _) (le_refl 20)
          · exact le_trans (List.length_take_le 50 _) (le_refl 50)
        · refine ⟨?_, ?_, ?_⟩
          · intro e he
            simp only [hb, if_false] at he
            exact hmem e (by simpa [hb] using he)
          · simpa [hb] using hlen
          · exact le_trans (List.length_take_le 50 _) (le_refl 50)
    | other t => simpa [deliver, h, handleMessage] using hs

theorem feedInv_run (fs : List Frame) :
    ∀ s : Session, feedInv s → feedInv (run fs s) := by
  induction fs with
  | nil => intro s hs; exact hs
  | cons f fs ih => intro s hs; exact ih (deliver s f) (feedInv_deliver s f hs)

/-! ## Claim theorems -/

set_option maxRecDepth 10000

/-- C1: pushing N items into an empty window of capacity C yields the items
newest-first truncated to C, so the length is min(N, C) and the front element
is the most recently pushed item; a push onto a full window evicts the tail
item; and after the 51 distinct transaction events of Scenario 4 the
transaction window has length 50, the first event is absent and the 51st is
at the front. -/
theorem windowBuffer_push_properties (cap : Nat) (hcap : 0 < cap)
    (evs : List RealtimeTransaction) (e : RealtimeTransaction) :
    pushAll cap [] evs = evs.reverse.take cap
  ∧ (pushAll cap [] evs).length = min evs.length cap
  ∧ (pushAll cap [] (evs ++ [e])).head? = some e
  ∧ (∀ buf : List RealtimeTransaction, buf.length = cap →
      pushWindow cap buf e = e :: buf.dropLast)
  ∧ (scenarioState.transactions.length = 50
      ∧ mkTx 1 ∉ scenarioState.transactions
      ∧ scenarioState.transactions.head? = some (mkTx 51)) := by
  obtain ⟨n, rfl⟩ : ∃ n, cap = n + 1 := ⟨cap - 1, by omega⟩
  refine ⟨pushAll_nil _ evs, ?_, ?_, ?_, by decide, by decide, by decide⟩
  · rw [pushAll_nil]
    simp [List.length_take]
    omega
  · rw [pushAll_nil]
    simp [List.take_succ_cons]
  · intro buf hlen
    simp only [pushWindow, List.take_succ_cons]
    congr 1
    rw [List.dropLast_eq_take, hlen]
    simp

/-- Witness for C1: pushing two events into the empty 50-window leaves the
second at the front. -/
theorem windowBuffer_push_properties_witness :
    (pushAll 50 ([] : List RealtimeTransaction) ([mkTx 1] ++ [mkTx 2])).head? =
      some (mkTx 2) :=
  (windowBuffer_push_properties 50 (by norm_num) [mkTx 1] (mkTx 2)).2.2.1

/-- C2: a processed transaction frame increments `total` by exactly 1,
`alerts` iff `is_alert`, `truePositives` iff `is_alert` and
`fraud_actual === 1`, `falsePositives` iff `is_alert` and
`fraud_actual === 0`; after N transaction events from a fresh session
`total = N`; and no processing step ever decrements a counter. -/
theorem transactionFrame_counter_increments (s : Session)
    (d : RealtimeTransaction) (h : s.closed = false) :
    ((deliver s (.transaction d)).stats.total = s.stats.total + 1
      ∧ (deliver s (.transaction d)).stats.alerts =
          s.stats.alerts + (if d.is_alert then 1 else 0)
      ∧ (deliver s (.transaction d)).stats.truePositives =
          s.stats.truePositives +
            (if d.is_alert = true ∧ d.fraud_actual = some 1 then 1 else 0)
      ∧ (deliver s (.transaction d)).stats.falsePositives =
          s.stats.falsePositives +
            (if d.is_alert = true ∧ d.fraud_actual = some 0 then 1 else 0))
  ∧ (∀ evs : List RealtimeTransaction,
      (run (evs.map Frame.transaction) initSession).stats.total =
        (evs.length : Int))
  ∧ (∀ (t : Session) (f : Frame), statsLe t.stats (deliver t f).stats) := by
  refine ⟨⟨?_, ?_, ?_, ?_⟩, ?_, fun t f => statsLe_deliver t f⟩
  · rw [deliver_transaction s d h]; rfl
  · rw [deliver_transaction s d h]; rfl
  · rw [deliver_transaction s d h]; rfl
  · rw [deliver_transaction s d h]; rfl
  · intro evs
    rw [run_tx_total evs initSession rfl]
    simp [initSession, initStats]

/-- Witness for C2: one alerted fraud event takes `total` from 0 to 1. -/
theorem transactionFrame_counter_increments_witness :
    (deliver initSession (.transaction demoAlertTP)).stats.total =
      initSession.stats.total + 1 :=
  (transactionFrame_counter_increments initSession demoAlertTP rfl).1.1

/-- C3: in every state reachable from a fresh session by frames whose alerted
events carry labels in `{0,1}`: `alerts ≤ total`,
`truePositives + falsePositives = alerts`, all counters non-negative; and
every processing step is monotone on all four counters. -/
theorem sessionStats_invariants (fs : List Frame)
    (hg : ∀ f ∈ fs, goodFrame f) :
    ((run fs initSession).stats.alerts ≤ (run fs initSession).stats.total
      ∧ (run fs initSession).stats.truePositives +
          (run fs initSession).stats.falsePositives =
          (run fs initSession).stats.alerts
      ∧ 0 ≤ (run fs initSession).stats.total
      ∧ 0 ≤ (run fs initSession).stats.alerts
      ∧ 0 ≤ (run fs initSession).stats.truePositives
      ∧ 0 ≤ (run fs initSession).stats.falsePositives)
  ∧ (∀ (t : Session) (f : Frame), statsLe t.stats (deliver t f).stats) := by
  constructor
  · exact statsInv_run fs initSession hg (by simp [statsInv, initSession, initStats])
  · exact fun t f => statsLe_deliver t f

/-- Witness for C3: after one alerted fraud event, `alerts ≤ total`. -/
theorem sessionStats_invariants_witness :
    (run [Frame.transaction demoAlertTP] initSession).stats.alerts ≤
      (run [Frame.transaction demoAlertTP] initSession).stats.total :=
  (sessionStats_invariants [Frame.transaction demoAlertTP]
    (by intro f hf; simp at hf; subst hf; simp [goodFrame, demoAlertTP])).1.1

/-- C4: in every reachable state, the alert feed holds only alerted events
and never exceeds 20 entries, the transaction stream never exceeds 50, and a
non-alerted transaction is never added to the alert feed. -/
theorem alertFeed_invariants (fs : List Frame) :
    (∀ e ∈ (run fs initSession).alerts, e.is_alert = true)
  ∧ (run fs initSession).alerts.length ≤ 20
  ∧ (run fs initSession).transactions.length ≤ 50
  ∧ (∀ (t : Session) (d : RealtimeTransaction), d.is_alert = false →
      (deliver t (.transaction d)).alerts = t.alerts) := by
  have h := feedInv_run fs initSession (by simp [feedInv, initSession])
  refine ⟨h.1, h.2.1, h.2.2, ?_⟩
  intro t d hd
  by_cases hc : t.closed
  · simp [deliver, hc]
  · rw [deliver_transaction t d (by simpa using hc)]
    simp [hd]

/-- Witness for C4: after Scenario 4 the alert feed has at most 20 entries. -/
theorem alertFeed_invariants_witness :
    (run scenarioFrames initSession).alerts.length ≤ 20 :=
  (alertFeed_invariants scenarioFrames).2.1

/-- C5: after `close()`, delivering any frame (or any sequence of frames)
leaves the session unchanged, and closing again is the identity on the
already-closed session. -/
theorem close_stops_processing (s : Session) (f : Frame) (fs : List Frame) :
    deliver (closeSession s) f = closeSession s
  ∧ run fs (closeSession s) = closeSession s
  ∧ closeSession (closeSession s) = closeSession s := by
  have h1 : ∀ g, deliver (closeSession s) g = closeSession s := by
    intro g; simp [deliver, closeSession]
  refine ⟨h1 f, ?_, rfl⟩
  induction fs with
  | nil => rfl
  | cons g gs ih =>
      show run gs (deliver (closeSession s) g) = closeSession s
      rw [h1 g]
      exact ih

/-- C6: an `{"type":"error"}` frame leaves the whole session state unchanged
(buffers, counters, connectivity indicator, open transport) while surfacing
the upstream error to the operator via the blocking dialog. -/
theorem errorFrame_surfaces_and_preserves_state (s : Session) (m : String) :
    deliver s (.errorMsg m) = s
  ∧ (handleMessage s (.errorMsg m)).2 = [.alertDialog ("Backend Error: " ++ m)]
  ∧ (deliver s (.errorMsg m)).isConnected = s.isConnected
  ∧ (deliver s (.errorMsg m)).closed = s.closed := by
  have h : deliver s (.errorMsg m) = s := by
    by_cases hc : s.closed <;> simp [deliver, hc, handleMessage]
  exact ⟨h, rfl, by rw [h], by rw [h]⟩

/-- C7: a frame whose body fails `JSON.parse` changes nothing — the thrown
exception escapes before any state update, is contained and logged by the
event loop, and the rest of the stream is processed as if the frame were
absent. -/
theorem malformedFrame_dropped (s : Session) (b : String) (fs : List Frame) :
    deliver s (.malformed b) = s
  ∧ (handleMessage s (.malformed b)).2 = [.uncaughtException b]
  ∧ run (Frame.malformed b :: fs) s = run fs s
  ∧ (deliver s (.malformed b)).isConnected = s.isConnected := by
  have h : deliver s (.malformed b) = s := by
    by_cases hc : s.closed <;> simp [deliver, hc, handleMessage]
  refine ⟨h, rfl, ?_, by rw [h]⟩
  show run fs (deliver s (.malformed b)) = run fs s
  rw [h]

/-- C8: a valid-JSON frame whose type tag is neither `"transaction"` nor
`"error"` is a no-op: no state change, no effect, and the rest of the stream
is processed as if the frame were absent. -/
theorem unknownTag_noop (s : Session) (tag : String) (fs : List Frame) :
    deliver s (.other tag) = s
  ∧ (handleMessage s (.other tag)).2 = []
  ∧ run (Frame.other tag :: fs) s = run fs s
  ∧ (deliver s (.other tag)).isConnected = s.isConnected := by
  have h : deliver s (.other tag) = s := by
    by_cases hc : s.closed <;> simp [deliver, hc, handleMessage]
  refine ⟨h, rfl, ?_, by rw [h]⟩
  show run fs (deliver s (.other tag)) = run fs s
  rw [h]

/-- C9: processing the identical transaction event twice increments each
applicable counter twice and pushes the event twice — no deduplication by id
or content: both windows then start with the event duplicated. -/
theorem duplicate_event_double_counted (s : Session) (d : RealtimeTransaction)
    (h : s.closed = false) :
    (deliver (deliver s (.transaction d)) (.transaction d)).stats.total =
        s.stats.total + 2
  ∧ (deliver (deliver s (.transaction d)) (.transaction d)).stats.alerts =
        s.stats.alerts + (if d.is_alert then 2 else 0)
  ∧ (deliver (deliver s (.transaction d)) (.transaction d)).stats.truePositives =
        s.stats.truePositives +
          (if d.is_alert = true ∧ d.fraud_actual = some 1 then 2 else 0)
  ∧ (deliver (deliver s (.transaction d)) (.transaction d)).stats.falsePositives =
        s.stats.falsePositives +
          (if d.is_alert = true ∧ d.fraud_actual = some 0 then 2 else 0)
  ∧ (deliver (deliver s (.transaction d)) (.transaction d)).transactions.take 2 =
        [d, d]
  ∧ (d.is_alert = true →
      (deliver (deliver s (.transaction d)) (.transaction d)).alerts.take 2 =
        [d, d]) := by
  have h2 : (deliver s (.transaction d)).closed = false := by
    rw [deliver_closed_eq]; exact h
  rw [deliver_transaction _ d h2, deliver_transaction s d h]
  refine ⟨?_, ?_, ?_, ?_, ?_, ?_⟩
  · simp [recordStats]; ring
  · by_cases hb : d.is_alert <;> (simp [recordStats, hb]; try ring)
  · by_cases hc : d.is_alert = true ∧ d.fraud_actual = some 1 <;>
      (simp [recordStats, hc]; try ring)
  · by_cases hc : d.is_alert = true ∧ d.fraud_actual = some 0 <;>
      (simp [recordStats, hc]; try ring)
  · show ((d :: pushWindow 50 s.transactions d).take 50).take 2 = [d, d]
    rw [List.take_take]
    norm_num [pushWindow, List.take_succ_cons]
  · intro hb
    simp only [hb, if_true]
    show ((d :: pushWindow 20 s.alerts d).take 20).take 2 = [d, d]
    rw [List.take_take]
    norm_num [pushWindow, List.take_succ_cons]

/-- Witness for C9: the same alerted event delivered twice takes `total`
from 0 to 2. -/
theorem duplicate_event_double_counted_witness :
    (deliver (deliver initSession (.transaction demoAlertTP))
        (.transaction demoAlertTP)).stats.total =
      initSession.stats.total + 2 :=
  (duplicate_event_double_counted initSession demoAlertTP rfl).1

/-- C10: an alerted transaction whose `fraud_actual` is outside `{0, 1}`
still increments `total` and `alerts` but neither `truePositives` nor
`falsePositives`, so it breaks `truePositives + falsePositives = alerts`
into a strict inequality — it is counted, not rejected. -/
theorem out_of_range_fraudActual_counted (s : Session)
    (d : RealtimeTransaction) (h : s.closed = false) (hb : d.is_alert = true)
    (h0 : d.fraud_actual ≠ some 0) (h1 : d.fraud_actual ≠ some 1) :
    (deliver s (.transaction d)).stats.total = s.stats.total + 1
  ∧ (deliver s (.transaction d)).stats.alerts = s.stats.alerts + 1
  ∧ (deliver s (.transaction d)).stats.truePositives = s.stats.truePositives
  ∧ (deliver s (.transaction d)).stats.falsePositives = s.stats.falsePositives
  ∧ (s.stats.truePositives + s.stats.falsePositives = s.stats.alerts →
      (deliver s (.transaction d)).stats.truePositives +
          (deliver s (.transaction d)).stats.falsePositives <
        (deliver s (.transaction d)).stats.alerts) := by
  rw [deliver_transaction s d h]
  simp [recordStats, hb, h0, h1]
  omega

/-- Witness for C10: an alerted event labelled 2 strictly separates
`truePositives + falsePositives` from `alerts`. -/
theorem out_of_range_fraudActual_counted_witness :
    (deliver initSession (.transaction demoAlertBadLabel)).stats.truePositives +
        (deliver initSession (.transaction demoAlertBadLabel)).stats.falsePositives <
      (deliver initSession (.transaction demoAlertBadLabel)).stats.alerts :=
  (out_of_range_fraudActual_counted initSession demoAlertBadLabel rfl rfl
    (by decide) (by decide)).2.2.2.2 (by decide)

end AttackOnPython
